import Mathlib

/-!
# Offline data-entry app: cache/fetch reconciliation and export pipeline

A shallow embedding of the core logic of the `Agriworks/offline-data-entry-app`
repository:

* the payload-normalization function `normalizeErpSystems` of the two ERP
  screens (both screens contain a character-identical copy);
* the cache-first / fetch / 401-retry reconciliation effect (`loadErpSystems`)
  of the first ERP screen, and the no-retry variant of the second ERP screen,
  modelled as deterministic functions of an explicit world of effect outcomes;
* the pending-forms export pipeline `exportPendingFormsToFile`.

JavaScript dynamic values are modelled by the inductive type `Json`
(JSON-style data: arrays carry no named properties, which matches values
produced by an HTTP client).  JavaScript numbers are modelled as rationals;
the non-finite results of `Number(...)` (`NaN`, `±Infinity`) are collapsed
into `Option.none`, which is observationally equivalent for the code at hand
because the only consumer guards with `Number.isFinite`.
-/

/-- A JavaScript/JSON value as produced by the HTTP client and stored in the
cache.  `jnum` carries a rational: JSON numerals are finite decimals. -/
inductive Json where
  | jnull : Json
  | jbool : Bool → Json
  | jnum : ℚ → Json
  | jstr : String → Json
  | jarr : List Json → Json
  | jobj : List (String × Json) → Json

namespace Json

/-- JavaScript truthiness (`Boolean(v)`): `null`, `false`, `0` and `""` are
falsy; arrays and objects are always truthy. -/
def jsTruthy : Json → Bool
  | .jnull => false
  | .jbool b => b
  | .jnum q => q != 0
  | .jstr s => s != ""
  | .jarr _ => true
  | .jobj _ => true

/-- Property access `v[k]`: `none` models JavaScript `undefined` (absent key,
or access on a primitive/array, which has no such named property). -/
def jGet : Json → String → Option Json
  | .jobj fields, k => (fields.find? (fun p => p.1 == k)).map (fun p => p.2)
  | _, _ => none

/-- The JavaScript `k in v` operator, defined on objects (on `null` the real
operator throws a `TypeError`; the reconciliation theorems therefore assume a
non-`null` error value, see `errWellFormed`). -/
def hasKey : Json → String → Bool
  | .jobj fields, k => fields.any (fun p => p.1 == k)
  | _, _ => false

/-- Rendering of a number by `String(...)`.  JavaScript prints decimal
expansions; this model prints integers exactly (the only case the claims
inspect) and a fraction as `num/den` otherwise — never the empty string. -/
def ratToString (q : ℚ) : String :=
  if q.den = 1 then toString q.num else toString q.num ++ "/" ++ toString q.den

/-- `String(v)`.  Arrays render by `Array.prototype.join`: elements separated
by commas, with `null` elements rendered as the empty string. -/
def jsString : Json → String
  | .jnull => "null"
  | .jbool true => "true"
  | .jbool false => "false"
  | .jnum q => ratToString q
  | .jstr s => s
  | .jobj _ => "[object Object]"
  | .jarr xs =>
    String.intercalate "," (xs.attach.map fun p =>
      match p with
      | ⟨.jnull, _⟩ => ""
      | ⟨v, hv⟩ => jsString v)
termination_by j => sizeOf j
decreasing_by
  have h := List.sizeOf_lt_of_mem hv
  simp only [Json.jarr.sizeOf_spec]
  omega

/-- All-decimal-digit run to a natural number; `none` when empty or when a
non-digit occurs. -/
def digitsToNat? (cs : List Char) : Option ℕ :=
  if cs.isEmpty then none
  else if cs.all (fun c => c.isDigit) then
    some (cs.foldl (fun a c => a * 10 + (c.toNat - 48)) 0)
  else none

/-- `10 ^ e` for a signed exponent. -/
def tenPow (e : ℤ) : ℚ :=
  if 0 ≤ e then ((10 : ℚ) ^ e.toNat) else ((10 : ℚ) ^ (-e).toNat)⁻¹

/-- Decimal mantissa: `digits`, `digits.`, `digits.digits` or `.digits`. -/
def parseMantissa (cs : List Char) : Option ℚ :=
  let ip := cs.takeWhile (fun c => c ≠ '.')
  let rest := cs.dropWhile (fun c => c ≠ '.')
  match rest with
  | [] => (digitsToNat? ip).map (fun n => (n : ℚ))
  | _ :: fp =>
    if fp.any (fun c => c = '.') then none
    else
      match digitsToNat? ip, digitsToNat? fp with
      | some n, some f => some ((n : ℚ) + (f : ℚ) / (10 : ℚ) ^ fp.length)
      | some n, none => if fp.isEmpty then some ((n : ℚ)) else none
      | none, some f => if ip.isEmpty then some ((f : ℚ) / (10 : ℚ) ^ fp.length) else none
      | none, none => none

/-- String-to-number coercion `Number(s)` restricted to the finite results:
trimmed-empty strings give `0`, signed decimal literals with an optional
exponent give their value, everything else (including `"Infinity"`, whose
result is non-finite anyway, and the hex/octal/binary literal forms, which do
not occur in the payloads at hand) gives `none`, the non-finite outcome. -/
def parseNumber (s : String) : Option ℚ :=
  let t := s.trim
  if t = "" then some 0
  else
    let cs := t.toList
    let signed : Bool × List Char :=
      match cs with
      | '-' :: r => (true, r)
      | '+' :: r => (false, r)
      | r => (false, r)
    let mant := signed.2.takeWhile (fun c => c ≠ 'e' ∧ c ≠ 'E')
    let expPart := signed.2.dropWhile (fun c => c ≠ 'e' ∧ c ≠ 'E')
    let base : Option ℚ :=
      match expPart with
      | [] => parseMantissa mant
      | _ :: ecs =>
        let esigned : Bool × List Char :=
          match ecs with
          | '-' :: r => (true, r)
          | '+' :: r => (false, r)
          | r => (false, r)
        match parseMantissa mant, digitsToNat? esigned.2 with
        | some m, some e =>
          some (m * tenPow (if esigned.1 then -(e : ℤ) else (e : ℤ)))
        | _, _ => none
    base.map (fun q => if signed.1 then -q else q)

/-- `Number(v)` for a whole value, returning `some q` exactly when the result
is finite (`none` models `NaN` and `±Infinity`).  Arrays coerce through their
string rendering (`ToPrimitive`), objects yield `NaN`. -/
def jsToNumber : Json → Option ℚ
  | .jnull => some 0
  | .jbool b => some (if b then 1 else 0)
  | .jnum q => some q
  | .jstr s => parseNumber s
  | .jarr xs => parseNumber (jsString (.jarr xs))
  | .jobj _ => none

/-- Does the character list start with the pattern? -/
def charsStartWith : List Char → List Char → Bool
  | _, [] => true
  | [], _ :: _ => false
  | a :: as, b :: bs => a == b && charsStartWith as bs

/-- Does the character list contain the pattern as a contiguous run? -/
def charsContain (sub : List Char) : List Char → Bool
  | [] => charsStartWith [] sub
  | a :: rest => charsStartWith (a :: rest) sub || charsContain sub rest

/-- `s.includes(sub)`. -/
def strContains (s sub : String) : Bool :=
  charsContain sub.toList s.toList

end Json

/-! ## Normalization (`normalizeErpSystems`, both ERP screens, identical copies) -/

/-- A normalized cache entry (`ErpSystem` of `services/erpStorage`).  The code
builds `formCount` with `Number(...)`, so the field is a JavaScript number,
modelled as a rational. -/
structure ErpSystem where
  id : String
  name : String
  formCount : ℚ
deriving DecidableEq, Repr

namespace Erp

open Json

/-- Nullish-coalescing alias chain: the first key whose value is present and
not `null` (the `item.a ?? item.b ?? ...` pattern). -/
def resolveAlias (item : Json) : List String → Option Json
  | [] => none
  | k :: ks =>
    match jGet item k with
    | none => resolveAlias item ks
    | some .jnull => resolveAlias item ks
    | some v => some v

/-- `item.id ?? item.ID ?? item.key ?? item.name ?? item.systemId ?? ''` -/
def resolveId (item : Json) : Json :=
  (resolveAlias item ["id", "ID", "key", "name", "systemId"]).getD (.jstr "")

/-- `item.name ?? item.title ?? item.systemName ?? ''` -/
def resolveName (item : Json) : Json :=
  (resolveAlias item ["name", "title", "systemName"]).getD (.jstr "")

/-- `item.formCount ?? item.form_count ?? item.formsCount ?? item.forms_count ?? 0` -/
def resolveFormCount (item : Json) : Json :=
  (resolveAlias item ["formCount", "form_count", "formsCount", "forms_count"]).getD (.jnum 0)

/-- `typeof item === 'object'` holds for objects, arrays and `null`; the
preceding `!item` check already rejects `null`. -/
def isObjectLike : Json → Bool
  | .jarr _ => true
  | .jobj _ => true
  | _ => false

/-- `mapToErpSystem` (source lines 62-87): `null` unless the item is a
non-null object whose resolved id and name are truthy; otherwise the record
with stringified id and name and the `Number.isFinite`-guarded form count. -/
def mapToErpSystem (item : Json) : Option ErpSystem :=
  if ¬ (jsTruthy item ∧ isObjectLike item) then none
  else
    let id := resolveId item
    let name := resolveName item
    let formCountValue := resolveFormCount item
    if ¬ (jsTruthy id ∧ jsTruthy name) then none
    else
      some
        { id := jsString id
          name := jsString name
          formCount := (jsToNumber formCountValue).getD 0 }

/-- One iteration of the candidate loop (source lines 51-60): a candidate that
is an array is taken as-is; a truthy candidate whose `data` field is an array
yields that field; `none` otherwise (also for an absent/falsy candidate, for
which both `Array.isArray(c)` and `c && Array.isArray(c.data)` are false). -/
def candidateStep : Option Json → Option (List Json)
  | none => none
  | some v =>
    match v with
    | .jarr xs => some xs
    | _ =>
      if jsTruthy v then
        match jGet v "data" with
        | some (.jarr ys) => some ys
        | _ => none
      else none

/-- The candidate-list extraction loop over `[raw?.data, raw]`. -/
def extractCandidateList (raw : Json) : List Json :=
  match candidateStep (jGet raw "data") with
  | some xs => xs
  | none => (candidateStep (some raw)).getD []

/-- The extraction including the leading `if (!raw) return []` guard. -/
def extractedList (raw : Json) : List Json :=
  if jsTruthy raw then extractCandidateList raw else []

/-- `normalizeErpSystems` (source lines 43-92): guard, candidate extraction,
then `list.map(mapToErpSystem).filter(Boolean)`, i.e. `filterMap`. -/
def normalizeErpSystems (raw : Json) : List ErpSystem :=
  (extractedList raw).filterMap mapToErpSystem

/-- Modelled from the spec (§4.1 step 1), for comparison with the code's
extraction: "if `raw.data` is a sequence, use it; else if `raw` itself is a
sequence, use it; else if `raw.data.data` is a sequence, use it; else empty
sequence." -/
def specCandidatePriority (raw : Json) : List Json :=
  match jGet raw "data" with
  | some (.jarr xs) => xs
  | _ =>
    match raw with
    | .jarr xs => xs
    | _ =>
      match jGet raw "data" with
      | some d =>
        match jGet d "data" with
        | some (.jarr ys) => ys
        | _ => []
      | none => []

end Erp

/-! ## The cache-first fetch reconciliation (`loadErpSystems`)

The effect is modelled as a deterministic function of a `FetchWorld` packaging
the outcome of every external capability the code awaits:

* `cache`: the `EntityCache` snapshot held by `erpStorage` (that module is not
  part of the sources; per the spec, `load` returns the snapshot or `Empty`
  and never throws, and `save` logs failures without propagating them — see
  the doc comments below);
* `fetch1`/`fetch2`: the outcome of the first and (possible) retried
  `getErpSystems()` call — a payload, or a thrown error value;
* `refresh`: the outcome of `getIdToken({forceRefresh: true})` — a token,
  `null`, or a thrown error;
* `saveOk`: whether the (spec-modelled) cache write succeeds;
* `cancelAt`: the suspension point during which the `useEffect` cleanup runs,
  flipping the `cancelled` flag (`none` = the view is never torn down).

Suspension points are numbered by completed `await`s: 1 the cache load, 2 the
first fetch, 3 the dynamic import (or on the success path the cache save),
4 the token refresh, 5 the settle delay, 6 the retried fetch, 7 the save after
the retry; the fallback cache re-read follows the preceding point. -/

/-- Outcomes of every awaited capability during one `loadErpSystems` run. -/
structure FetchWorld where
  cache : Option (List ErpSystem)
  isConnected : Option Bool
  fetch1 : Except Json Json
  refresh : Except Json (Option String)
  fetch2 : Except Json Json
  saveOk : Bool
  cancelAt : Option ℕ

/-- Observable result of one run: the final `erpSystems` React state (the
rendered value), the final cache snapshot, and how many times each remote
capability was invoked. -/
structure RunResult where
  rendered : List ErpSystem
  cache : Option (List ErpSystem)
  fetchCalls : ℕ
  refreshCalls : ℕ
  settleDelays : ℕ
deriving DecidableEq, Repr

namespace Erp

open Json

/-- Whether the `cancelled` flag is set once `t` suspension points have
completed. -/
def cancelledAt (w : FetchWorld) (t : ℕ) : Bool :=
  match w.cancelAt with
  | none => false
  | some c => c ≤ t

/-- Is a field strictly equal to the number 401 (`x === 401`)? -/
def isStatus401 : Option Json → Bool
  | some (.jnum q) => q == 401
  | _ => false

/-- `error?.message?.includes(sub)`; a present non-string, non-nullish
`message` would make the real code throw, which `errWellFormed` excludes. -/
def messageIncludes (e : Json) (sub : String) : Bool :=
  match jGet e "message" with
  | some (.jstr s) => strContains s sub
  | _ => false

/-- The duck-typed 401 classification (source lines 134-142):
`error?.response?.status === 401 || error?.status === 401 ||
error?.statusCode === 401 || (typeof error === 'object' && 'status' in error
&& error.status === 401) || error?.message?.includes('401') ||
error?.message?.includes('Unauthorized')`. -/
def is401Error (e : Json) : Bool :=
  isStatus401 ((jGet e "response").bind (fun r => jGet r "status")) ||
  isStatus401 (jGet e "status") ||
  isStatus401 (jGet e "statusCode") ||
  ((match e with | .jnull => true | .jarr _ => true | .jobj _ => true | _ => false) &&
    hasKey e "status" && isStatus401 (jGet e "status")) ||
  messageIncludes e "401" ||
  messageIncludes e "Unauthorized"

/-- Thrown error values on which the embedded classifier agrees with the
JavaScript original: not `null` (for which `'status' in error` throws) and
with an absent, nullish or string `message` (for which `.includes` throws
otherwise). -/
def errWellFormed (e : Json) : Bool :=
  (match e with | .jnull => false | _ => true) &&
  (match jGet e "message" with
   | none => true
   | some .jnull => true
   | some (.jstr _) => true
   | some _ => false)

/-- The provisional render after the cache read (source lines 105-108):
`if (!cancelled && cached && cached.length > 0) setErpSystems(cached)`,
starting from the initial `useState` value `[]`. -/
def provisionalRender (w : FetchWorld) : List ErpSystem :=
  if ¬ cancelledAt w 1 ∧ w.cache.isSome ∧ (w.cache.getD []).length > 0 then w.cache.getD []
  else []

/-- The catch-path fallback (source lines 176-192 and 196-210, and the same
shape on the second screen): guarded by one `!cancelled` check taken after
`t` completed suspensions, render the step-1 snapshot if non-empty, else
re-read the cache (one further suspension, with no fresh cancellation check
before the write) and render it if non-empty, else render `[]`.  `r1` is the
rendered state entering the catch. -/
def fallbackRender (w : FetchWorld) (r1 : List ErpSystem)
    (cached : Option (List ErpSystem)) (t : ℕ) : List ErpSystem :=
  if cancelledAt w t then r1
  else if (cached.getD []).length > 0 then cached.getD []
  else
    let fb := w.cache
    if (fb.getD []).length > 0 then fb.getD [] else []

/-- `loadErpSystems` of the first ERP screen (source lines 97-217), as a
function of the effect outcomes.

The cache read and write are spec-modelled (module `services/erpStorage` is
not among the sources): per spec §4.1, `load() -> Sequence | Empty` "fails
silently (returns Empty) ... never throws to caller", so the surrounding
`try/catch` never fires and the read yields the current snapshot; `save`
"serializes and overwrites the single stored blob; failure is logged, not
propagated", so an awaited save never throws and on failure leaves the
snapshot unchanged. -/
def runScreen1 (w : FetchWorld) : RunResult :=
  if cancelledAt w 0 then
    { rendered := [], cache := w.cache, fetchCalls := 0, refreshCalls := 0, settleDelays := 0 }
  else
    let cached := w.cache
    let r1 : List ErpSystem := provisionalRender w
    if w.isConnected = some false then
      { rendered := r1, cache := w.cache, fetchCalls := 0, refreshCalls := 0, settleDelays := 0 }
    else
      match w.fetch1 with
      | .ok resp =>
        let systems := normalizeErpSystems resp
        let r2 := if ¬ cancelledAt w 2 then systems else r1
        { rendered := r2
          cache := if w.saveOk then some systems else w.cache
          fetchCalls := 1, refreshCalls := 0, settleDelays := 0 }
      | .error e =>
        if is401Error e then
          match w.refresh with
          | .ok (some _tok) =>
            match w.fetch2 with
            | .ok resp2 =>
              let systems := normalizeErpSystems resp2
              let r2 := if ¬ cancelledAt w 6 then systems else r1
              { rendered := r2
                cache := if w.saveOk then some systems else w.cache
                fetchCalls := 2, refreshCalls := 1, settleDelays := 1 }
            | .error _e2 =>
              { rendered := fallbackRender w r1 cached 6
                cache := w.cache, fetchCalls := 2, refreshCalls := 1, settleDelays := 1 }
          | .ok none =>
            { rendered := fallbackRender w r1 cached 4
              cache := w.cache, fetchCalls := 1, refreshCalls := 1, settleDelays := 0 }
          | .error _re =>
            { rendered := fallbackRender w r1 cached 4
              cache := w.cache, fetchCalls := 1, refreshCalls := 1, settleDelays := 0 }
        else
          { rendered := fallbackRender w r1 cached 2
            cache := w.cache, fetchCalls := 1, refreshCalls := 0, settleDelays := 0 }

/-- `loadErpSystems` of the second ERP screen (source lines 439-509): same
cache-first shape, but the success path stores and renders only a non-empty
normalized result (`!cancelled && systems.length > 0`), and the catch path
never classifies the error nor retries — it falls back to the cache
directly. -/
def runScreen2 (w : FetchWorld) : RunResult :=
  if cancelledAt w 0 then
    { rendered := [], cache := w.cache, fetchCalls := 0, refreshCalls := 0, settleDelays := 0 }
  else
    let cached := w.cache
    let r1 : List ErpSystem := provisionalRender w
    if w.isConnected = some false then
      { rendered := r1, cache := w.cache, fetchCalls := 0, refreshCalls := 0, settleDelays := 0 }
    else
      match w.fetch1 with
      | .ok resp =>
        let systems := normalizeErpSystems resp
        if ¬ cancelledAt w 2 ∧ systems.length > 0 then
          { rendered := systems
            cache := if w.saveOk then some systems else w.cache
            fetchCalls := 1, refreshCalls := 0, settleDelays := 0 }
        else
          { rendered := r1, cache := w.cache, fetchCalls := 1, refreshCalls := 0, settleDelays := 0 }
      | .error _e =>
        { rendered := fallbackRender w r1 cached 2
          cache := w.cache, fetchCalls := 1, refreshCalls := 0, settleDelays := 0 }

end Erp

/-! ## Export pipeline (`exportPendingFormsToFile`, `src/utils/exportPendingForms`) -/

namespace ExportPipeline

/-- Result union of `exportPendingFormsToFile`.  `error` carries the
`lastError` variable, which starts as `null` — hence the `Option`. -/
inductive ExportStatus where
  | empty : ExportStatus
  | success (filePath fileName directory : String) : ExportStatus
  | error (cause : Option Json) : ExportStatus

/-- Outcomes of the four filesystem calls a single candidate directory can
trigger: `RNFS.exists(directory)`, `RNFS.mkdir`, `RNFS.writeFile`, and the
read-back `RNFS.exists(filePath)`.  Each can return or throw. -/
structure FsOutcome where
  existsDir : Except Json Bool
  mkdirRes : Except Json Unit
  writeRes : Except Json Unit
  existsFile : Except Json Bool

/-- The platform cases that shape the candidate-directory list: on Android the
two optional RNFS path constants may be absent (falsy). -/
inductive Platform where
  | android (hasDownloadDir hasExternalDir : Bool)
  | ios

def downloadDirectoryPath : String := "Download"
def externalStorageDirectoryPath : String := "ExternalStorage"
def documentDirectoryPath : String := "Documents"

/-- Candidate directories in order of preference (source lines 152-168). -/
def targetDirectories : Platform → List String
  | .android hasDownloadDir hasExternalDir =>
    (if hasDownloadDir then [downloadDirectoryPath] else []) ++
    (if hasExternalDir then [externalStorageDirectoryPath ++ "/Download"] else []) ++
    [documentDirectoryPath]
  | .ios => [documentDirectoryPath]

/-- The world of one export invocation: the queue read (spec-modelled:
`app/pendingQueue.getQueue` is not among the sources; per spec §4.3
`readAll() -> Sequence<PendingFormRecord>` with the empty sequence a valid
result), the platform, the timestamp `new Date().toISOString()` of this run,
and the filesystem behavior per directory path. -/
structure ExportWorld where
  queue : List Json
  platform : Platform
  timestamp : String
  env : String → FsOutcome

/-- `buildFileName` (source lines 134-137): the ISO timestamp with `:` and
`.` replaced by `-`. -/
def buildFileName (timestamp : String) : String :=
  "pending_forms_" ++
    (timestamp.map (fun c => if c = ':' ∨ c = '.' then '-' else c)) ++ ".json"

/-- The error thrown when the read-back verification reports the file
missing: `new Error('File was not created successfully')`. -/
def notCreatedError : Json :=
  .jobj [("message", .jstr "File was not created successfully")]

/-- One iteration of the directory loop (source lines 172-195): ensure the
directory exists (create if missing), write the file, verify it is readable
back; the result is the success `filePath` or the caught error, paired with
the number of filesystem write operations (`mkdir`/`writeFile`) invoked. -/
def attemptDir (o : FsOutcome) (dir fileName : String) : Except Json String × ℕ :=
  match o.existsDir with
  | .error e => (.error e, 0)
  | .ok dirExists =>
    let mk : Except Json Unit × ℕ :=
      if dirExists then (.ok (), 0)
      else
        match o.mkdirRes with
        | .error e => (.error e, 1)
        | .ok _ => (.ok (), 1)
    match mk with
    | (.error e, n) => (.error e, n)
    | (.ok _, n) =>
      match o.writeRes with
      | .error e => (.error e, n + 1)
      | .ok _ =>
        match o.existsFile with
        | .error e => (.error e, n + 1)
        | .ok true => (.ok (dir ++ "/" ++ fileName), n + 1)
        | .ok false => (.error notCreatedError, n + 1)

/-- Whether a candidate directory fully succeeds (ensure-exists, write, and
read-back verification). -/
def dirSucceeds (o : FsOutcome) : Bool :=
  match o.existsDir with
  | .error _ => false
  | .ok dirExists =>
    (dirExists || (match o.mkdirRes with | .ok _ => true | .error _ => false)) &&
    (match o.writeRes with | .ok _ => true | .error _ => false) &&
    (match o.existsFile with | .ok true => true | _ => false)

/-- The error a failing candidate records into `lastError`. -/
def dirFailure (o : FsOutcome) : Json :=
  match o.existsDir with
  | .error e => e
  | .ok dirExists =>
    match (if dirExists then .ok () else o.mkdirRes : Except Json Unit) with
    | .error e => e
    | .ok _ =>
      match o.writeRes with
      | .error e => e
      | .ok _ =>
        match o.existsFile with
        | .error e => e
        | _ => notCreatedError

/-- The `for (const directory of targetDirectories)` loop, threading
`lastError` and summing write operations. -/
def exportLoop (env : String → FsOutcome) (fileName : String) :
    List String → Option Json → ExportStatus × ℕ
  | [], lastError => (.error lastError, 0)
  | dir :: rest, lastError =>
    let a := attemptDir (env dir) dir fileName
    match a.1 with
    | .ok filePath => (.success filePath fileName dir, a.2)
    | .error e =>
      let r := exportLoop env fileName rest (some e)
      (r.1, a.2 + r.2)

/-- `exportPendingFormsToFile` (source lines 139-199): an empty queue read
returns `{empty}` before any filesystem interaction; otherwise the candidate
directories are tried in order.  (The serialized payload contents do not
affect control flow and are not tracked; the write outcome is `env`'s.) -/
def exportPendingFormsToFile (w : ExportWorld) : ExportStatus × ℕ :=
  if w.queue.length = 0 then (.empty, 0)
  else
    exportLoop w.env (buildFileName w.timestamp) (targetDirectories w.platform) none

end ExportPipeline

/-! ## Claims -/


/-- Property access on a non-object yields `undefined`. -/
theorem Json.jGet_jnull (k : String) : Json.jGet .jnull k = none := rfl

theorem Json.jGet_jbool (b : Bool) (k : String) : Json.jGet (.jbool b) k = none := rfl

theorem Json.jGet_jnum (q : ℚ) (k : String) : Json.jGet (.jnum q) k = none := rfl

theorem Json.jGet_jstr (s k : String) : Json.jGet (.jstr s) k = none := rfl

theorem Json.jGet_jarr (xs : List Json) (k : String) : Json.jGet (.jarr xs) k = none := rfl

/-- **C4.** For every raw payload, normalize selects the candidate list by the
spec's priority order: `raw.data` if it is a sequence; else `raw` itself if it
is a sequence; else `raw.data.data` if it is a sequence; else the empty
sequence.  The code's two-candidate loop over `[raw?.data, raw]` computes
exactly this priority (in the JSON value model, where an array carries no
named properties, the loop's early `raw.data.data` check can never shadow the
`raw`-itself case). -/
theorem c4_candidate_priority_order :
    ∀ raw : Json, Erp.extractedList raw = Erp.specCandidatePriority raw := by
  intro raw
  cases raw with
  | jnull => rfl
  | jbool b => cases b <;> rfl
  | jnum q =>
    simp only [Erp.extractedList, Erp.extractCandidateList, Erp.candidateStep,
      Erp.specCandidatePriority, Json.jsTruthy, Json.jGet_jnum, ite_self, Option.getD_none]
  | jstr s =>
    simp only [Erp.extractedList, Erp.extractCandidateList, Erp.candidateStep,
      Erp.specCandidatePriority, Json.jsTruthy, Json.jGet_jstr, ite_self, Option.getD_none]
  | jarr xs => rfl
  | jobj fs =>
    rcases hd : Json.jGet (Json.jobj fs) "data" with _ | v
    · simp only [Erp.extractedList, Erp.extractCandidateList, Erp.candidateStep,
        Erp.specCandidatePriority, Json.jsTruthy, hd]
      rfl
    · cases v with
      | jnull =>
        simp only [Erp.extractedList, Erp.extractCandidateList, Erp.candidateStep,
          Erp.specCandidatePriority, Json.jsTruthy, hd]
        rfl
      | jbool b =>
        simp only [Erp.extractedList, Erp.extractCandidateList, Erp.candidateStep,
          Erp.specCandidatePriority, Json.jsTruthy, hd, Json.jGet_jbool]
        cases b <;> rfl
      | jnum q =>
        simp only [Erp.extractedList, Erp.extractCandidateList, Erp.candidateStep,
          Erp.specCandidatePriority, Json.jsTruthy, hd, Json.jGet_jnum, ite_self]
        rfl
      | jstr s =>
        simp only [Erp.extractedList, Erp.extractCandidateList, Erp.candidateStep,
          Erp.specCandidatePriority, Json.jsTruthy, hd, Json.jGet_jstr, ite_self]
        rfl
      | jarr xs =>
        simp only [Erp.extractedList, Erp.extractCandidateList, Erp.candidateStep,
          Erp.specCandidatePriority, Json.jsTruthy, hd]
        rfl
      | jobj gs =>
        rcases hd2 : Json.jGet (Json.jobj gs) "data" with _ | u
        · simp only [Erp.extractedList, Erp.extractCandidateList, Erp.candidateStep,
            Erp.specCandidatePriority, Json.jsTruthy, hd, hd2]
          rfl
        · cases u <;>
            · simp only [Erp.extractedList, Erp.extractCandidateList, Erp.candidateStep,
                Erp.specCandidatePriority, Json.jsTruthy, hd, hd2]
              rfl

/-- Survivors of a `filterMap` keep their relative order: mapped through
`some`, they form a sublist of the pointwise image. -/
theorem filterMap_map_some_sublist {α β : Type _} (f : α → Option β) (l : List α) :
    ((l.filterMap f).map some).Sublist (l.map f) := by
  induction l with
  | nil => simp
  | cons a l ih =>
    cases h : f a with
    | none =>
      simp only [List.filterMap_cons, h, List.map_cons]
      exact ih.cons _
    | some b =>
      simp only [List.filterMap_cons, h, List.map_cons]
      exact ih.cons₂ _

/-- Unfolding lemmas for `jsString` (a well-founded definition, so the
equations are provided for rewriting). -/
theorem Json.jsString_jnull : Json.jsString .jnull = "null" := by
  simp [Json.jsString]

theorem Json.jsString_jbool (b : Bool) :
    Json.jsString (.jbool b) = (if b then "true" else "false") := by
  cases b <;> simp [Json.jsString]

theorem Json.jsString_jnum (q : ℚ) : Json.jsString (.jnum q) = Json.ratToString q := by
  simp [Json.jsString]

theorem Json.jsString_jstr (s : String) : Json.jsString (.jstr s) = s := by
  simp [Json.jsString]

theorem Json.jsString_jobj (fs : List (String × Json)) :
    Json.jsString (.jobj fs) = "[object Object]" := by
  simp [Json.jsString]

/-- **C6 counterexample.** The claim predicts an item is dropped if and only
if its resolved id or name is empty after coercion to string.  The item
`{id: 0, name: "CSA"}` resolves id `0` and name `"CSA"`; both stringify to
non-empty strings (`"0"`, `"CSA"`), so the claim predicts the item is kept —
yet the code drops it, because it tests JavaScript truthiness of the resolved
values before the string coercion, and `0` is falsy. -/
theorem c6_counterexample :
    Erp.mapToErpSystem (.jobj [("id", .jnum 0), ("name", .jstr "CSA")]) = none ∧
    Erp.normalizeErpSystems (.jarr [.jobj [("id", .jnum 0), ("name", .jstr "CSA")]]) = [] ∧
    Erp.resolveId (.jobj [("id", .jnum 0), ("name", .jstr "CSA")]) = .jnum 0 ∧
    Erp.resolveName (.jobj [("id", .jnum 0), ("name", .jstr "CSA")]) = .jstr "CSA" ∧
    Json.jsString (.jnum 0) = "0" ∧
    Json.jsString (.jstr "CSA") = "CSA" := by
  refine ⟨rfl, rfl, rfl, rfl, ?_, ?_⟩
  · rw [Json.jsString_jnum]; decide
  · rw [Json.jsString_jstr]

/-- **C6 (amended).** normalize drops a candidate item if and only if the
item is not a non-null object, or its resolved id or resolved name is *falsy*
(JavaScript truthiness, tested before the coercion to string — so `0`,
`false` and `""` are dropped even though some of them stringify to non-empty
text); the output count is at most the input count, relative order of
survivors is preserved, and no deduplication by id is performed (a duplicated
input list yields the duplicated output). -/
theorem c6_amended_drop_condition :
    (∀ item : Json, Erp.mapToErpSystem item = none ↔
      ¬(Json.jsTruthy item = true ∧ Erp.isObjectLike item = true ∧
        Json.jsTruthy (Erp.resolveId item) = true ∧
        Json.jsTruthy (Erp.resolveName item) = true)) ∧
    (∀ raw : Json,
      (Erp.normalizeErpSystems raw).length ≤ (Erp.extractedList raw).length) ∧
    (∀ raw : Json,
      ((Erp.normalizeErpSystems raw).map some).Sublist
        ((Erp.extractedList raw).map Erp.mapToErpSystem)) ∧
    (∀ xs : List Json,
      Erp.normalizeErpSystems (.jarr (xs ++ xs)) =
        Erp.normalizeErpSystems (.jarr xs) ++ Erp.normalizeErpSystems (.jarr xs)) := by
  refine ⟨?_, ?_, ?_, ?_⟩
  · intro item
    unfold Erp.mapToErpSystem
    split_ifs with h1 h2 <;> simp_all <;> tauto
  · intro raw
    exact List.length_filterMap_le _ _
  · intro raw
    exact filterMap_map_some_sublist _ _
  · intro xs
    simp only [Erp.normalizeErpSystems, Erp.extractedList, Erp.extractCandidateList,
      Erp.candidateStep, Json.jsTruthy, Json.jGet_jarr, if_true, Option.getD_some]
    exact List.filterMap_append _ _ _

/-- The concrete item `{id: "1", name: "A", form_count: -2}` used to settle
the formCount claim. -/
def sampleNegativeItem : Json :=
  .jobj [("id", .jstr "1"), ("name", .jstr "A"), ("form_count", .jnum (-2))]

/-- `mapToErpSystem` keeps the sample item, with its negative form count. -/
theorem mapToErpSystem_sampleNegativeItem :
    Erp.mapToErpSystem sampleNegativeItem =
      some { id := "1", name := "A", formCount := -2 } := by
  have hid : Erp.resolveId sampleNegativeItem = .jstr "1" := rfl
  have hname : Erp.resolveName sampleNegativeItem = .jstr "A" := rfl
  have hfc : Erp.resolveFormCount sampleNegativeItem = .jnum (-2) := rfl
  have ht : Json.jsTruthy sampleNegativeItem = true := rfl
  have ho : Erp.isObjectLike sampleNegativeItem = true := rfl
  have ht1 : Json.jsTruthy (.jstr "1") = true := rfl
  have ht2 : Json.jsTruthy (.jstr "A") = true := rfl
  simp [Erp.mapToErpSystem, hid, hname, hfc, ht, ho, ht1, ht2, Json.jsString_jstr,
    Json.jsToNumber]

/-- **C7 counterexample.** The claim predicts every survivor's resolved
`formCount` is a non-negative integer.  The item
`{id: "1", name: "A", form_count: -2}` survives normalization with
`formCount = -2 < 0`: the code only guards with `Number.isFinite` and never
clamps or truncates. -/
theorem c7_counterexample :
    Erp.normalizeErpSystems (.jarr [sampleNegativeItem]) =
      [{ id := "1", name := "A", formCount := -2 }] ∧
    ({ id := "1", name := "A", formCount := -2 } : ErpSystem).formCount < 0 := by
  constructor
  · simp only [Erp.normalizeErpSystems]
    rw [show Erp.extractedList (.jarr [sampleNegativeItem]) = [sampleNegativeItem] from rfl]
    simp [List.filterMap_cons, mapToErpSystem_sampleNegativeItem]
  · norm_num

/-- **C7 (amended).** For every candidate item that survives normalization,
its resolved formCount is the first present of `formCount`, `form_count`,
`formsCount`, `forms_count`, defaulting to `0` when absent; the value is
`Number`-coerced and kept whenever that coercion is finite — it may be
negative or non-integral — and is `0` when the coercion is not finite. -/
theorem c7_amended_form_count (item : Json) (s : ErpSystem)
    (h : Erp.mapToErpSystem item = some s) :
    s.formCount = (Json.jsToNumber (Erp.resolveFormCount item)).getD 0 := by
  simp only [Erp.mapToErpSystem] at h
  split_ifs at h with h1 h2
  all_goals try exact Option.noConfusion h
  rw [Option.some_inj] at h
  subst h
  rfl

/-- Witness for the amended C7 theorem at the concrete surviving item. -/
theorem c7_amended_form_count_witness :
    ({ id := "1", name := "A", formCount := -2 } : ErpSystem).formCount =
      (Json.jsToNumber (Erp.resolveFormCount sampleNegativeItem)).getD 0 :=
  c7_amended_form_count sampleNegativeItem
    { id := "1", name := "A", formCount := -2 } mapToErpSystem_sampleNegativeItem

/-- With no teardown scheduled, the cancellation flag never reads true. -/
theorem Erp.cancelledAt_none (w : FetchWorld) (h : w.cancelAt = none) (t : ℕ) :
    Erp.cancelledAt w t = false := by
  simp [Erp.cancelledAt, h]

/-- A snapshot render collapses to `getD []`: a non-empty snapshot renders
itself, an absent or empty snapshot leaves the initial `[]`. -/
theorem Erp.provisionalRender_uncancelled (w : FetchWorld) (h : w.cancelAt = none) :
    Erp.provisionalRender w = w.cache.getD [] := by
  unfold Erp.provisionalRender
  rw [Erp.cancelledAt_none w h]
  cases hc : w.cache with
  | none => simp
  | some l => cases l <;> simp

/-- With no teardown, the catch-path fallback renders the cache snapshot
(empty list when the snapshot is absent or empty). -/
theorem Erp.fallbackRender_uncancelled (w : FetchWorld) (r1 : List ErpSystem) (t : ℕ)
    (h : w.cancelAt = none) :
    Erp.fallbackRender w r1 w.cache t = w.cache.getD [] := by
  unfold Erp.fallbackRender
  rw [Erp.cancelledAt_none w h]
  cases hc : w.cache with
  | none => simp
  | some l => cases l <;> simp

/-- Branch reduction: a run whose view is torn down before it starts. -/
theorem Erp.runScreen1_cancel0 (w : FetchWorld) (h : Erp.cancelledAt w 0 = true) :
    Erp.runScreen1 w =
      { rendered := [], cache := w.cache, fetchCalls := 0, refreshCalls := 0, settleDelays := 0 } := by
  simp [Erp.runScreen1, h]

/-- Branch reduction: the offline early return of the first screen. -/
theorem Erp.runScreen1_offline (w : FetchWorld) (h0 : Erp.cancelledAt w 0 = false)
    (hoff : w.isConnected = some false) :
    Erp.runScreen1 w =
      { rendered := Erp.provisionalRender w, cache := w.cache,
        fetchCalls := 0, refreshCalls := 0, settleDelays := 0 } := by
  simp [Erp.runScreen1, h0, hoff]

/-- Branch reduction: the success path of the first screen. -/
theorem Erp.runScreen1_fetchOk (w : FetchWorld) (resp : Json)
    (h0 : Erp.cancelledAt w 0 = false) (hon : w.isConnected ≠ some false)
    (hf : w.fetch1 = .ok resp) :
    Erp.runScreen1 w =
      { rendered :=
          if ¬ Erp.cancelledAt w 2 then Erp.normalizeErpSystems resp
          else Erp.provisionalRender w
        cache := if w.saveOk then some (Erp.normalizeErpSystems resp) else w.cache
        fetchCalls := 1, refreshCalls := 0, settleDelays := 0 } := by
  simp [Erp.runScreen1, h0, hf, if_neg hon]

/-- Branch reduction: a non-401 fetch failure on the first screen. -/
theorem Erp.runScreen1_fetchErrNon401 (w : FetchWorld) (e : Json)
    (h0 : Erp.cancelledAt w 0 = false) (hon : w.isConnected ≠ some false)
    (hf : w.fetch1 = .error e) (h401 : Erp.is401Error e = false) :
    Erp.runScreen1 w =
      { rendered := Erp.fallbackRender w (Erp.provisionalRender w) w.cache 2
        cache := w.cache, fetchCalls := 1, refreshCalls := 0, settleDelays := 0 } := by
  simp [Erp.runScreen1, h0, hf, h401, if_neg hon]

/-- Branch reduction: 401 failure, token obtained, retried fetch succeeds. -/
theorem Erp.runScreen1_retryOk (w : FetchWorld) (e : Json) (tok : String) (resp2 : Json)
    (h0 : Erp.cancelledAt w 0 = false) (hon : w.isConnected ≠ some false)
    (hf : w.fetch1 = .error e) (h401 : Erp.is401Error e = true)
    (hr : w.refresh = .ok (some tok)) (hf2 : w.fetch2 = .ok resp2) :
    Erp.runScreen1 w =
      { rendered :=
          if ¬ Erp.cancelledAt w 6 then Erp.normalizeErpSystems resp2
          else Erp.provisionalRender w
        cache := if w.saveOk then some (Erp.normalizeErpSystems resp2) else w.cache
        fetchCalls := 2, refreshCalls := 1, settleDelays := 1 } := by
  simp [Erp.runScreen1, h0, hf, h401, hr, hf2, if_neg hon]

/-- Branch reduction: 401 failure, token obtained, retried fetch fails. -/
theorem Erp.runScreen1_retryErr (w : FetchWorld) (e : Json) (tok : String) (e2 : Json)
    (h0 : Erp.cancelledAt w 0 = false) (hon : w.isConnected ≠ some false)
    (hf : w.fetch1 = .error e) (h401 : Erp.is401Error e = true)
    (hr : w.refresh = .ok (some tok)) (hf2 : w.fetch2 = .error e2) :
    Erp.runScreen1 w =
      { rendered := Erp.fallbackRender w (Erp.provisionalRender w) w.cache 6
        cache := w.cache, fetchCalls := 2, refreshCalls := 1, settleDelays := 1 } := by
  simp [Erp.runScreen1, h0, hf, h401, hr, hf2, if_neg hon]

/-- Branch reduction: 401 failure and the refresh yields no usable token
(`null` token or a thrown refresh error) — the retry is skipped. -/
theorem Erp.runScreen1_refreshFails (w : FetchWorld) (e : Json)
    (h0 : Erp.cancelledAt w 0 = false) (hon : w.isConnected ≠ some false)
    (hf : w.fetch1 = .error e) (h401 : Erp.is401Error e = true)
    (hr : w.refresh = .ok none ∨ ∃ re, w.refresh = .error re) :
    Erp.runScreen1 w =
      { rendered := Erp.fallbackRender w (Erp.provisionalRender w) w.cache 4
        cache := w.cache, fetchCalls := 1, refreshCalls := 1, settleDelays := 0 } := by
  rcases hr with hr | ⟨re, hr⟩ <;> simp [Erp.runScreen1, h0, hf, h401, hr, if_neg hon]

/-- Branch reduction: torn down before start, second screen. -/
theorem Erp.runScreen2_cancel0 (w : FetchWorld) (h : Erp.cancelledAt w 0 = true) :
    Erp.runScreen2 w =
      { rendered := [], cache := w.cache, fetchCalls := 0, refreshCalls := 0, settleDelays := 0 } := by
  simp [Erp.runScreen2, h]

/-- Branch reduction: the offline early return of the second screen. -/
theorem Erp.runScreen2_offline (w : FetchWorld) (h0 : Erp.cancelledAt w 0 = false)
    (hoff : w.isConnected = some false) :
    Erp.runScreen2 w =
      { rendered := Erp.provisionalRender w, cache := w.cache,
        fetchCalls := 0, refreshCalls := 0, settleDelays := 0 } := by
  simp [Erp.runScreen2, h0, hoff]

/-- Branch reduction: the success path of the second screen, with its
`!cancelled && systems.length > 0` guard. -/
theorem Erp.runScreen2_fetchOk (w : FetchWorld) (resp : Json)
    (h0 : Erp.cancelledAt w 0 = false) (hon : w.isConnected ≠ some false)
    (hf : w.fetch1 = .ok resp) :
    Erp.runScreen2 w =
      (if ¬ Erp.cancelledAt w 2 ∧ (Erp.normalizeErpSystems resp).length > 0 then
        { rendered := Erp.normalizeErpSystems resp
          cache := if w.saveOk then some (Erp.normalizeErpSystems resp) else w.cache
          fetchCalls := 1, refreshCalls := 0, settleDelays := 0 }
      else
        { rendered := Erp.provisionalRender w, cache := w.cache,
          fetchCalls := 1, refreshCalls := 0, settleDelays := 0 }) := by
  simp only [Erp.runScreen2, h0, Bool.false_eq_true, if_false, hf, if_neg hon]

/-- Branch reduction: any fetch failure on the second screen — no
classification, no retry. -/
theorem Erp.runScreen2_fetchErr (w : FetchWorld) (e : Json)
    (h0 : Erp.cancelledAt w 0 = false) (hon : w.isConnected ≠ some false)
    (hf : w.fetch1 = .error e) :
    Erp.runScreen2 w =
      { rendered := Erp.fallbackRender w (Erp.provisionalRender w) w.cache 2
        cache := w.cache, fetchCalls := 1, refreshCalls := 0, settleDelays := 0 } := by
  simp [Erp.runScreen2, h0, hf, if_neg hon]

/-- The retry chain fails: refresh throws, yields no token, or the second
fetch fails. -/
def Erp.retryFails (w : FetchWorld) : Bool :=
  match w.refresh with
  | .error _ => true
  | .ok none => true
  | .ok (some _) =>
    match w.fetch2 with
    | .error _ => true
    | .ok _ => false

/-- **C1.** For every prior cache snapshot (possibly empty) and every run in
which the remote fetch fails — a non-401 error, or a 401 whose
refresh-and-retry also fails — the EntityCache afterwards still holds the
snapshot unchanged and the rendered value equals it (the empty sequence when
no snapshot existed).  Proved for both ERP screens, for a run whose view is
not torn down. -/
theorem c1_failed_fetch_keeps_snapshot (w : FetchWorld) (e : Json)
    (hnc : w.cancelAt = none) (hon : w.isConnected ≠ some false)
    (hf : w.fetch1 = .error e) (hwf : Erp.errWellFormed e = true)
    (hfail : Erp.is401Error e = true → Erp.retryFails w = true) :
    (Erp.runScreen1 w).cache = w.cache ∧
    (Erp.runScreen1 w).rendered = w.cache.getD [] ∧
    (Erp.runScreen2 w).cache = w.cache ∧
    (Erp.runScreen2 w).rendered = w.cache.getD [] := by
  have h0 : Erp.cancelledAt w 0 = false := Erp.cancelledAt_none w hnc 0
  have hfb : ∀ t, Erp.fallbackRender w (Erp.provisionalRender w) w.cache t = w.cache.getD [] :=
    fun t => Erp.fallbackRender_uncancelled w _ t hnc
  have hs2 : Erp.runScreen2 w =
      { rendered := Erp.fallbackRender w (Erp.provisionalRender w) w.cache 2
        cache := w.cache, fetchCalls := 1, refreshCalls := 0, settleDelays := 0 } :=
    Erp.runScreen2_fetchErr w e h0 hon hf
  by_cases h401 : Erp.is401Error e = true
  · cases hrefresh : w.refresh with
    | error re =>
      rw [Erp.runScreen1_refreshFails w e h0 hon hf h401 (Or.inr ⟨re, hrefresh⟩), hs2]
      simp [hfb]
    | ok tokOpt =>
      cases tokOpt with
      | none =>
        rw [Erp.runScreen1_refreshFails w e h0 hon hf h401 (Or.inl hrefresh), hs2]
        simp [hfb]
      | some tok =>
        cases hf2 : w.fetch2 with
        | error e2 =>
          rw [Erp.runScreen1_retryErr w e tok e2 h0 hon hf h401 hrefresh hf2, hs2]
          simp [hfb]
        | ok resp2 =>
          have := hfail h401
          rw [Erp.retryFails, hrefresh, hf2] at this
          exact absurd this (by simp)
  · have h401f : Erp.is401Error e = false := by simpa using h401
    rw [Erp.runScreen1_fetchErrNon401 w e h0 hon hf h401f, hs2]
    simp [hfb]

/-- The snapshot and error values used by the C1 witness: a cache with one
entry, and a fetch failing with a plain network error (no 401 signal). -/
def Erp.networkError : Json := .jobj [("message", .jstr "Network request failed")]

def Erp.c1World : FetchWorld :=
  { cache := some [{ id := "1", name := "CSA", formCount := 2 }]
    isConnected := some true
    fetch1 := .error Erp.networkError
    refresh := .ok none
    fetch2 := .error .jnull
    saveOk := true
    cancelAt := none }

/-- Witness: C1 at a concrete world with a cached snapshot and a non-401
network failure. -/
theorem c1_failed_fetch_keeps_snapshot_witness :
    (Erp.runScreen1 Erp.c1World).cache = Erp.c1World.cache ∧
    (Erp.runScreen1 Erp.c1World).rendered = Erp.c1World.cache.getD [] ∧
    (Erp.runScreen2 Erp.c1World).cache = Erp.c1World.cache ∧
    (Erp.runScreen2 Erp.c1World).rendered = Erp.c1World.cache.getD [] :=
  c1_failed_fetch_keeps_snapshot Erp.c1World Erp.networkError rfl (by decide) rfl
    (by decide) (by decide)

/-- **C8.** With `networkState = Offline` (`isConnected === false`), neither
screen ever invokes the remote fetch (or the token refresh), the cache is
left untouched, and — when the view is not torn down — the run settles with
whatever the cache load produced: the snapshot, or the empty sequence
surfaced as a normal value. -/
theorem c8_offline_never_fetches (w : FetchWorld) (hoff : w.isConnected = some false) :
    (Erp.runScreen1 w).fetchCalls = 0 ∧ (Erp.runScreen1 w).refreshCalls = 0 ∧
    (Erp.runScreen1 w).cache = w.cache ∧
    (Erp.runScreen2 w).fetchCalls = 0 ∧ (Erp.runScreen2 w).refreshCalls = 0 ∧
    (Erp.runScreen2 w).cache = w.cache ∧
    (w.cancelAt = none →
      (Erp.runScreen1 w).rendered = w.cache.getD [] ∧
      (Erp.runScreen2 w).rendered = w.cache.getD []) := by
  by_cases h0 : Erp.cancelledAt w 0 = true
  · rw [Erp.runScreen1_cancel0 w h0, Erp.runScreen2_cancel0 w h0]
    refine ⟨rfl, rfl, rfl, rfl, rfl, rfl, ?_⟩
    intro hnc
    rw [Erp.cancelledAt_none w hnc 0] at h0
    exact absurd h0 (by simp)
  · have h0f : Erp.cancelledAt w 0 = false := by simpa using h0
    rw [Erp.runScreen1_offline w h0f hoff, Erp.runScreen2_offline w h0f hoff]
    refine ⟨rfl, rfl, rfl, rfl, rfl, rfl, ?_⟩
    intro hnc
    rw [Erp.provisionalRender_uncancelled w hnc]
    exact ⟨rfl, rfl⟩

def Erp.c8World : FetchWorld :=
  { cache := some [{ id := "1", name := "CSA", formCount := 2 }]
    isConnected := some false
    fetch1 := .error .jnull
    refresh := .ok none
    fetch2 := .error .jnull
    saveOk := true
    cancelAt := none }

/-- Witness: C8 at a concrete offline world with a cached snapshot. -/
theorem c8_offline_never_fetches_witness :
    (Erp.runScreen1 Erp.c8World).fetchCalls = 0 ∧ (Erp.runScreen1 Erp.c8World).refreshCalls = 0 ∧
    (Erp.runScreen1 Erp.c8World).cache = Erp.c8World.cache ∧
    (Erp.runScreen2 Erp.c8World).fetchCalls = 0 ∧ (Erp.runScreen2 Erp.c8World).refreshCalls = 0 ∧
    (Erp.runScreen2 Erp.c8World).cache = Erp.c8World.cache ∧
    (Erp.c8World.cancelAt = none →
      (Erp.runScreen1 Erp.c8World).rendered = Erp.c8World.cache.getD [] ∧
      (Erp.runScreen2 Erp.c8World).rendered = Erp.c8World.cache.getD []) :=
  c8_offline_never_fetches Erp.c8World rfl

/-- **C10.** A failure of the EntityCache write after a successful fetch
never aborts or alters the in-progress render: on both the plain success path
and the post-refresh retry success path of the first screen, the rendered
value is the fresh normalized sequence whatever `saveOk` is (the snapshot is
overwritten exactly when the save succeeds).  The save itself is
spec-modelled (`erpStorage` is not among the sources): per spec §4.1 a save
failure is logged, not propagated, so the `catch` reclassification path of
the source is unreachable from a cache-write failure. -/
theorem c10_save_failure_never_alters_render (w : FetchWorld)
    (hnc : w.cancelAt = none) (hon : w.isConnected ≠ some false) :
    (∀ resp, w.fetch1 = .ok resp →
      (Erp.runScreen1 w).rendered = Erp.normalizeErpSystems resp ∧
      (Erp.runScreen1 w).cache =
        (if w.saveOk then some (Erp.normalizeErpSystems resp) else w.cache)) ∧
    (∀ e tok resp2, w.fetch1 = .error e → Erp.is401Error e = true →
      w.refresh = .ok (some tok) → w.fetch2 = .ok resp2 →
      (Erp.runScreen1 w).rendered = Erp.normalizeErpSystems resp2 ∧
      (Erp.runScreen1 w).cache =
        (if w.saveOk then some (Erp.normalizeErpSystems resp2) else w.cache)) := by
  have h0 : Erp.cancelledAt w 0 = false := Erp.cancelledAt_none w hnc 0
  constructor
  · intro resp hf
    rw [Erp.runScreen1_fetchOk w resp h0 hon hf]
    simp [Erp.cancelledAt_none w hnc]
  · intro e tok resp2 hf h401 hr hf2
    rw [Erp.runScreen1_retryOk w e tok resp2 h0 hon hf h401 hr hf2]
    simp [Erp.cancelledAt_none w hnc]

/-- The sample fresh payload `{data: [{id: "2", name: "Beta"}]}`. -/
def Erp.betaPayload : Json :=
  .jobj [("data", .jarr [.jobj [("id", .jstr "2"), ("name", .jstr "Beta")]])]

/-- The sample payload normalizes to the single record `Beta`. -/
theorem Erp.normalize_betaPayload :
    Erp.normalizeErpSystems Erp.betaPayload =
      [{ id := "2", name := "Beta", formCount := 0 }] := by
  have hitem : Erp.mapToErpSystem (.jobj [("id", .jstr "2"), ("name", .jstr "Beta")]) =
      some { id := "2", name := "Beta", formCount := 0 } := by
    have hid : Erp.resolveId (.jobj [("id", .jstr "2"), ("name", .jstr "Beta")]) =
        .jstr "2" := rfl
    have hname : Erp.resolveName (.jobj [("id", .jstr "2"), ("name", .jstr "Beta")]) =
        .jstr "Beta" := rfl
    have hfc : Erp.resolveFormCount (.jobj [("id", .jstr "2"), ("name", .jstr "Beta")]) =
        .jnum 0 := rfl
    have ht : Json.jsTruthy (.jobj [("id", .jstr "2"), ("name", .jstr "Beta")]) = true := rfl
    have ho : Erp.isObjectLike (.jobj [("id", .jstr "2"), ("name", .jstr "Beta")]) = true := rfl
    have ht1 : Json.jsTruthy (.jstr "2") = true := rfl
    have ht2 : Json.jsTruthy (.jstr "Beta") = true := rfl
    simp [Erp.mapToErpSystem, hid, hname, hfc, ht, ho, ht1, ht2, Json.jsString_jstr,
      Json.jsToNumber]
  simp only [Erp.normalizeErpSystems]
  rw [show Erp.extractedList Erp.betaPayload =
      [.jobj [("id", .jstr "2"), ("name", .jstr "Beta")]] from rfl]
  simp [List.filterMap_cons, hitem]

def Erp.c10World : FetchWorld :=
  { cache := some [{ id := "1", name := "CSA", formCount := 2 }]
    isConnected := some true
    fetch1 := .ok Erp.betaPayload
    refresh := .ok none
    fetch2 := .error .jnull
    saveOk := false
    cancelAt := none }

/-- Witness: C10 at a concrete world whose cache write fails — the fresh
sequence is still the rendered value and the snapshot is untouched. -/
theorem c10_save_failure_never_alters_render_witness :
    (Erp.runScreen1 Erp.c10World).rendered = Erp.normalizeErpSystems Erp.betaPayload ∧
    (Erp.runScreen1 Erp.c10World).cache =
      (if Erp.c10World.saveOk then some (Erp.normalizeErpSystems Erp.betaPayload)
       else Erp.c10World.cache) :=
  (c10_save_failure_never_alters_render Erp.c10World rfl (by decide)).1 Erp.betaPayload rfl

/-- A thrown error carrying a structured 401 status. -/
def Erp.err401 : Json := .jobj [("status", .jnum 401)]

def Erp.c2World : FetchWorld :=
  { cache := some [{ id := "1", name := "CSA", formCount := 2 }]
    isConnected := some true
    fetch1 := .error Erp.err401
    refresh := .ok (some "token")
    fetch2 := .ok Erp.betaPayload
    saveOk := true
    cancelAt := none }

/-- **C2 counterexample.** The claim predicts that on a 401-classified fetch
failure `reconcile` performs exactly one retry, repeating the fetch once when
the refresh yields a token.  On the second ERP screen, a 401 failure in a
world whose refresh would yield a token and whose retried fetch would succeed
triggers no refresh and no second fetch at all: one fetch call, a fallback to
the cached value, cache unchanged. -/
theorem c2_counterexample :
    Erp.is401Error Erp.err401 = true ∧
    (Erp.runScreen2 Erp.c2World).fetchCalls = 1 ∧
    (Erp.runScreen2 Erp.c2World).refreshCalls = 0 ∧
    (Erp.runScreen2 Erp.c2World).settleDelays = 0 ∧
    (Erp.runScreen2 Erp.c2World).cache = Erp.c2World.cache ∧
    (Erp.runScreen2 Erp.c2World).rendered = [{ id := "1", name := "CSA", formCount := 2 }] := by
  have h := Erp.runScreen2_fetchErr Erp.c2World Erp.err401 rfl (by decide) rfl
  rw [h]
  refine ⟨by decide, rfl, rfl, rfl, rfl, ?_⟩
  rw [Erp.fallbackRender_uncancelled Erp.c2World _ 2 rfl]
  rfl

/-- **C2 (amended).** On the *first* ERP screen, a 401-classified fetch
failure triggers exactly one retry: a refresh yielding a token is followed by
one settle delay and one repeated fetch (never a third call — the total is at
most 2); a successful retry has its normalized result cached and rendered,
while a failed retry, or a refresh yielding no token (with no delay and no
second fetch), falls back to the cached value with the cache untouched.  The
*second* ERP screen performs no retry at all: any fetch failure, 401
included, falls back to the cached value after a single fetch call. -/
theorem c2_amended_single_retry_screen1_only (w : FetchWorld) (e : Json)
    (hnc : w.cancelAt = none) (hon : w.isConnected ≠ some false)
    (hf : w.fetch1 = .error e) (hwf : Erp.errWellFormed e = true)
    (h401 : Erp.is401Error e = true) :
    (∀ tok resp2, w.refresh = .ok (some tok) → w.fetch2 = .ok resp2 →
      Erp.runScreen1 w =
        { rendered := Erp.normalizeErpSystems resp2
          cache := if w.saveOk then some (Erp.normalizeErpSystems resp2) else w.cache
          fetchCalls := 2, refreshCalls := 1, settleDelays := 1 }) ∧
    (∀ tok e2, w.refresh = .ok (some tok) → w.fetch2 = .error e2 →
      Erp.runScreen1 w =
        { rendered := w.cache.getD [], cache := w.cache
          fetchCalls := 2, refreshCalls := 1, settleDelays := 1 }) ∧
    (w.refresh = .ok none ∨ (∃ re, w.refresh = .error re) →
      Erp.runScreen1 w =
        { rendered := w.cache.getD [], cache := w.cache
          fetchCalls := 1, refreshCalls := 1, settleDelays := 0 }) ∧
    (Erp.runScreen1 w).fetchCalls ≤ 2 ∧
    Erp.runScreen2 w =
      { rendered := w.cache.getD [], cache := w.cache
        fetchCalls := 1, refreshCalls := 0, settleDelays := 0 } := by
  have h0 : Erp.cancelledAt w 0 = false := Erp.cancelledAt_none w hnc 0
  have hfb : ∀ t, Erp.fallbackRender w (Erp.provisionalRender w) w.cache t = w.cache.getD [] :=
    fun t => Erp.fallbackRender_uncancelled w _ t hnc
  refine ⟨?_, ?_, ?_, ?_, ?_⟩
  · intro tok resp2 hr hf2
    rw [Erp.runScreen1_retryOk w e tok resp2 h0 hon hf h401 hr hf2]
    simp [Erp.cancelledAt_none w hnc]
  · intro tok e2 hr hf2
    rw [Erp.runScreen1_retryErr w e tok e2 h0 hon hf h401 hr hf2]
    simp [hfb]
  · intro hr
    rw [Erp.runScreen1_refreshFails w e h0 hon hf h401 hr]
    simp [hfb]
  · cases hr : w.refresh with
    | error re =>
      rw [Erp.runScreen1_refreshFails w e h0 hon hf h401 (Or.inr ⟨re, hr⟩)]
      exact Nat.le_of_lt (by norm_num)
    | ok tokOpt =>
      cases tokOpt with
      | none =>
        rw [Erp.runScreen1_refreshFails w e h0 hon hf h401 (Or.inl hr)]
        exact Nat.le_of_lt (by norm_num)
      | some tok =>
        cases hf2 : w.fetch2 with
        | error e2 => rw [Erp.runScreen1_retryErr w e tok e2 h0 hon hf h401 hr hf2]
        | ok resp2 => rw [Erp.runScreen1_retryOk w e tok resp2 h0 hon hf h401 hr hf2]
  · rw [Erp.runScreen2_fetchErr w e h0 hon hf]
    simp [hfb]

/-- Witness: the amended C2 theorem at a concrete world in which the 401
retry succeeds on the first screen (and the second screen, at the same world,
ignores the available refresh). -/
theorem c2_amended_single_retry_screen1_only_witness :
    Erp.runScreen1 Erp.c2World =
      { rendered := Erp.normalizeErpSystems Erp.betaPayload
        cache := if Erp.c2World.saveOk then some (Erp.normalizeErpSystems Erp.betaPayload)
                 else Erp.c2World.cache
        fetchCalls := 2, refreshCalls := 1, settleDelays := 1 } :=
  (c2_amended_single_retry_screen1_only Erp.c2World Erp.err401 rfl (by decide) rfl
    (by decide) (by decide)).1 "token" Erp.betaPayload rfl rfl

def Erp.c3World : FetchWorld :=
  { cache := some [{ id := "1", name := "CSA", formCount := 2 }]
    isConnected := some true
    fetch1 := .ok Erp.betaPayload
    refresh := .ok none
    fetch2 := .error .jnull
    saveOk := true
    cancelAt := some 1 }

/-- **C3 counterexample.** The claim predicts a reconciliation whose view has
been torn down never applies its result to shared state, the flag being
checked after every suspension point before any mutation.  In a world torn
down during the first suspension (`cancelAt = 1`, before the fetch) whose
fetch succeeds, the first screen's run leaves the rendered state untouched
(`[]`) — yet still overwrites the shared EntityCache with its normalized
result: the `saveErpSystemsToCache` call carries no cancellation guard. -/
theorem c3_counterexample :
    Erp.c3World.cancelAt = some 1 ∧
    (Erp.runScreen1 Erp.c3World).rendered = [] ∧
    (Erp.runScreen1 Erp.c3World).cache =
      some [{ id := "2", name := "Beta", formCount := 0 }] ∧
    (Erp.runScreen1 Erp.c3World).cache ≠ Erp.c3World.cache := by
  have h := Erp.runScreen1_fetchOk Erp.c3World Erp.betaPayload rfl (by decide) rfl
  rw [h]
  refine ⟨rfl, ?_, ?_, ?_⟩
  · simp [Erp.provisionalRender, Erp.cancelledAt, Erp.c3World]
  · simp [Erp.c3World, Erp.normalize_betaPayload]
  · simp only [Erp.normalize_betaPayload]
    decide

/-- **C3 (amended).** Cancellation is checked before the React state
mutations: a run torn down by suspension 1 keeps the provisional render
empty, and on the success paths the post-fetch render keeps the provisional
value when the flag is set by then.  But the EntityCache write is *not*
cancellation-guarded: on both success paths (initial and post-refresh retry)
the normalized result is saved — overwriting the shared snapshot — whether or
not the view has been torn down. -/
theorem c3_amended_cache_write_unguarded (w : FetchWorld)
    (h0 : Erp.cancelledAt w 0 = false) (hon : w.isConnected ≠ some false) :
    (Erp.cancelledAt w 1 = true → Erp.provisionalRender w = []) ∧
    (∀ resp, w.fetch1 = .ok resp →
      (Erp.cancelledAt w 2 = true →
        (Erp.runScreen1 w).rendered = Erp.provisionalRender w) ∧
      (Erp.runScreen1 w).cache =
        (if w.saveOk then some (Erp.normalizeErpSystems resp) else w.cache)) ∧
    (∀ e tok resp2, w.fetch1 = .error e → Erp.is401Error e = true →
      w.refresh = .ok (some tok) → w.fetch2 = .ok resp2 →
      (Erp.cancelledAt w 6 = true →
        (Erp.runScreen1 w).rendered = Erp.provisionalRender w) ∧
      (Erp.runScreen1 w).cache =
        (if w.saveOk then some (Erp.normalizeErpSystems resp2) else w.cache)) := by
  refine ⟨?_, ?_, ?_⟩
  · intro h1
    simp [Erp.provisionalRender, h1]
  · intro resp hf
    rw [Erp.runScreen1_fetchOk w resp h0 hon hf]
    exact ⟨fun hc => by simp [hc], rfl⟩
  · intro e tok resp2 hf h401 hr hf2
    rw [Erp.runScreen1_retryOk w e tok resp2 h0 hon hf h401 hr hf2]
    exact ⟨fun hc => by simp [hc], rfl⟩

/-- Witness: the amended C3 theorem at the torn-down world of the
counterexample — the render stays provisional while the cache write goes
through. -/
theorem c3_amended_cache_write_unguarded_witness :
    (Erp.cancelledAt Erp.c3World 2 = true →
      (Erp.runScreen1 Erp.c3World).rendered = Erp.provisionalRender Erp.c3World) ∧
    (Erp.runScreen1 Erp.c3World).cache =
      (if Erp.c3World.saveOk then some (Erp.normalizeErpSystems Erp.betaPayload)
       else Erp.c3World.cache) :=
  ((c3_amended_cache_write_unguarded Erp.c3World rfl (by decide)).2.1
    Erp.betaPayload rfl)

/-- A successful payload that normalizes to the empty sequence. -/
def Erp.emptyPayload : Json := .jobj [("data", .jarr [])]

def Erp.c5World : FetchWorld :=
  { cache := some [{ id := "1", name := "CSA", formCount := 2 }]
    isConnected := some true
    fetch1 := .ok Erp.emptyPayload
    refresh := .ok none
    fetch2 := .error .jnull
    saveOk := true
    cancelAt := none }

/-- **C5 counterexample.** The claim predicts every successful fetch
wholesale-overwrites the EntityCache with the normalized payload even when it
is empty, and that the fresh sequence is returned.  On the second ERP screen
a successful fetch normalizing to `[]` (guard `systems.length > 0`) neither
writes the cache nor renders the fresh value: the old snapshot stays in both
places. -/
theorem c5_counterexample :
    Erp.normalizeErpSystems Erp.emptyPayload = [] ∧
    (Erp.runScreen2 Erp.c5World).cache = Erp.c5World.cache ∧
    (Erp.runScreen2 Erp.c5World).cache ≠ some (Erp.normalizeErpSystems Erp.emptyPayload) ∧
    (Erp.runScreen2 Erp.c5World).rendered = [{ id := "1", name := "CSA", formCount := 2 }] ∧
    (Erp.runScreen2 Erp.c5World).rendered ≠ Erp.normalizeErpSystems Erp.emptyPayload := by
  have h := Erp.runScreen2_fetchOk Erp.c5World Erp.emptyPayload rfl (by decide) rfl
  rw [h]
  rw [if_neg (by decide)]
  refine ⟨rfl, rfl, by decide, ?_, ?_⟩
  · rw [Erp.provisionalRender_uncancelled Erp.c5World rfl]
    rfl
  · rw [Erp.provisionalRender_uncancelled Erp.c5World rfl]
    decide

/-- **C5 (amended).** On the first ERP screen every successful fetch —
initial or post-refresh retry — wholesale-overwrites the EntityCache with the
normalized payload (no merge), even when the normalized sequence is empty,
and the fresh sequence is the rendered value (assuming the spec-modelled
cache write succeeds).  On the second ERP screen this holds only for a
non-empty normalized result: an empty successful fetch leaves both the cache
and the rendered value at the previous snapshot. -/
theorem c5_amended_overwrite_wholesale (w : FetchWorld)
    (hnc : w.cancelAt = none) (hon : w.isConnected ≠ some false)
    (hsave : w.saveOk = true) :
    (∀ resp, w.fetch1 = .ok resp →
      Erp.runScreen1 w =
        { rendered := Erp.normalizeErpSystems resp
          cache := some (Erp.normalizeErpSystems resp)
          fetchCalls := 1, refreshCalls := 0, settleDelays := 0 }) ∧
    (∀ e tok resp2, w.fetch1 = .error e → Erp.is401Error e = true →
      w.refresh = .ok (some tok) → w.fetch2 = .ok resp2 →
      Erp.runScreen1 w =
        { rendered := Erp.normalizeErpSystems resp2
          cache := some (Erp.normalizeErpSystems resp2)
          fetchCalls := 2, refreshCalls := 1, settleDelays := 1 }) ∧
    (∀ resp, w.fetch1 = .ok resp → (Erp.normalizeErpSystems resp).length > 0 →
      Erp.runScreen2 w =
        { rendered := Erp.normalizeErpSystems resp
          cache := some (Erp.normalizeErpSystems resp)
          fetchCalls := 1, refreshCalls := 0, settleDelays := 0 }) ∧
    (∀ resp, w.fetch1 = .ok resp → Erp.normalizeErpSystems resp = [] →
      Erp.runScreen2 w =
        { rendered := w.cache.getD [], cache := w.cache
          fetchCalls := 1, refreshCalls := 0, settleDelays := 0 }) := by
  have h0 : Erp.cancelledAt w 0 = false := Erp.cancelledAt_none w hnc 0
  refine ⟨?_, ?_, ?_, ?_⟩
  · intro resp hf
    rw [Erp.runScreen1_fetchOk w resp h0 hon hf]
    simp [Erp.cancelledAt_none w hnc, hsave]
  · intro e tok resp2 hf h401 hr hf2
    rw [Erp.runScreen1_retryOk w e tok resp2 h0 hon hf h401 hr hf2]
    simp [Erp.cancelledAt_none w hnc, hsave]
  · intro resp hf hlen
    rw [Erp.runScreen2_fetchOk w resp h0 hon hf]
    rw [if_pos ⟨by simp [Erp.cancelledAt_none w hnc], hlen⟩]
    simp [hsave]
  · intro resp hf hemp
    rw [Erp.runScreen2_fetchOk w resp h0 hon hf]
    rw [if_neg (by rw [hemp]; simp)]
    rw [Erp.provisionalRender_uncancelled w hnc]

/-- Witness: the amended C5 theorem at the concrete world of the C5
counterexample — the first screen caches and renders the empty fresh
sequence. -/
theorem c5_amended_overwrite_wholesale_witness :
    Erp.runScreen1 Erp.c5World =
      { rendered := Erp.normalizeErpSystems Erp.emptyPayload
        cache := some (Erp.normalizeErpSystems Erp.emptyPayload)
        fetchCalls := 1, refreshCalls := 0, settleDelays := 0 } :=
  (c5_amended_overwrite_wholesale Erp.c5World rfl (by decide) rfl).1 Erp.emptyPayload rfl

/-- A candidate attempt returns the success path exactly when the directory
fully succeeds, and otherwise the recorded failure. -/
theorem ExportPipeline.attemptDir_spec (o : ExportPipeline.FsOutcome) (dir fn : String) :
    (ExportPipeline.attemptDir o dir fn).1 =
      (if ExportPipeline.dirSucceeds o then .ok (dir ++ "/" ++ fn)
       else .error (ExportPipeline.dirFailure o)) := by
  rcases o with ⟨ed, mk, wr, ef⟩
  rcases ed with e | b
  · rfl
  · rcases b <;> rcases mk with me | mu <;> rcases wr with we | wu <;>
      rcases ef with fe | fb <;>
      first
        | rfl
        | (rcases fb <;> rfl)

/-- Nonempty lists of candidate directories on every platform (the
app-private document directory is always appended). -/
theorem ExportPipeline.targetDirectories_ne_nil (p : ExportPipeline.Platform) :
    ExportPipeline.targetDirectories p ≠ [] := by
  cases p with
  | android h1 h2 => cases h1 <;> cases h2 <;> simp [ExportPipeline.targetDirectories]
  | ios => simp [ExportPipeline.targetDirectories]

/-- The directory loop returns success at the first fully-succeeding
candidate. -/
theorem ExportPipeline.exportLoop_success (env : String → ExportPipeline.FsOutcome)
    (fn : String) (dirs : List String) (l : Option Json) (d : String)
    (h : dirs.find? (fun x => ExportPipeline.dirSucceeds (env x)) = some d) :
    (ExportPipeline.exportLoop env fn dirs l).1 =
      .success (d ++ "/" ++ fn) fn d := by
  induction dirs generalizing l with
  | nil => simp at h
  | cons a rest ih =>
    cases hp : ExportPipeline.dirSucceeds (env a) with
    | true =>
      simp only [List.find?, hp, Option.some.injEq] at h
      subst h
      rw [ExportPipeline.exportLoop]
      simp only [ExportPipeline.attemptDir_spec, hp, if_true]
    | false =>
      simp only [List.find?, hp] at h
      rw [ExportPipeline.exportLoop]
      simp only [ExportPipeline.attemptDir_spec, hp, Bool.false_eq_true, if_false]
      exact ih _ h

/-- When every candidate fails, the loop returns the error status carrying
the last candidate's recorded failure (or the incoming `lastError` when there
are no candidates). -/
theorem ExportPipeline.exportLoop_allFail (env : String → ExportPipeline.FsOutcome)
    (fn : String) (dirs : List String) (l : Option Json)
    (h : dirs.find? (fun x => ExportPipeline.dirSucceeds (env x)) = none) :
    (ExportPipeline.exportLoop env fn dirs l).1 =
      .error (dirs.getLast?.elim l (fun d => some (ExportPipeline.dirFailure (env d)))) := by
  induction dirs generalizing l with
  | nil => rfl
  | cons a rest ih =>
    cases hp : ExportPipeline.dirSucceeds (env a) with
    | true =>
      simp only [List.find?, hp] at h
      exact Option.noConfusion h
    | false =>
      simp only [List.find?, hp] at h
      rw [ExportPipeline.exportLoop]
      simp only [ExportPipeline.attemptDir_spec, hp, Bool.false_eq_true, if_false]
      cases rest with
      | nil => exact ih _ h
      | cons b rest2 =>
        rw [ih _ h]
        cases hgl : (b :: rest2).getLast? with
        | none =>
          have hs : (b :: rest2).getLast?.isSome := List.getLast?_isSome.mpr (by simp)
          rw [hgl] at hs
          exact absurd hs (by simp)
        | some x => simp [hgl]

/-- **C9.** `export()` returns `{empty}` and performs no filesystem write
when the queue read yields an empty sequence; otherwise it returns
`{success, filePath, fileName, directory}` referencing the first candidate
directory for which ensure-exists, file write and read-back verification all
succeed — later candidates untried, as the loop returns at the first success
without consulting the remaining candidates — and it returns `{error, cause}`
carrying the last recorded failure exactly when every candidate fails (the
candidate list is never empty).  The queue read is spec-modelled
(`app/pendingQueue` is not among the sources): per spec §4.3 it yields a
sequence, with the empty sequence a valid result. -/
theorem c9_export_tristate (w : ExportPipeline.ExportWorld) :
    (w.queue.length = 0 → ExportPipeline.exportPendingFormsToFile w = (.empty, 0)) ∧
    (w.queue.length ≠ 0 →
      (∀ d, (ExportPipeline.targetDirectories w.platform).find?
            (fun x => ExportPipeline.dirSucceeds (w.env x)) = some d →
          (ExportPipeline.exportPendingFormsToFile w).1 =
            .success (d ++ "/" ++ ExportPipeline.buildFileName w.timestamp)
              (ExportPipeline.buildFileName w.timestamp) d) ∧
      ((ExportPipeline.targetDirectories w.platform).find?
            (fun x => ExportPipeline.dirSucceeds (w.env x)) = none →
          (ExportPipeline.exportPendingFormsToFile w).1 =
            .error ((ExportPipeline.targetDirectories w.platform).getLast?.elim none
              (fun d => some (ExportPipeline.dirFailure (w.env d)))))) ∧
    ExportPipeline.targetDirectories w.platform ≠ [] ∧
    (∀ (env : String → ExportPipeline.FsOutcome) (fn dir : String)
        (rest : List String) (l : Option Json),
      ExportPipeline.dirSucceeds (env dir) = true →
      ExportPipeline.exportLoop env fn (dir :: rest) l =
        (.success (dir ++ "/" ++ fn) fn dir,
          (ExportPipeline.attemptDir (env dir) dir fn).2)) := by
  refine ⟨?_, ?_, ExportPipeline.targetDirectories_ne_nil w.platform, ?_⟩
  · intro h
    simp [ExportPipeline.exportPendingFormsToFile, h]
  · intro h
    constructor
    · intro d hd
      rw [ExportPipeline.exportPendingFormsToFile, if_neg h]
      exact ExportPipeline.exportLoop_success _ _ _ _ _ hd
    · intro hnone
      rw [ExportPipeline.exportPendingFormsToFile, if_neg h]
      exact ExportPipeline.exportLoop_allFail _ _ _ _ hnone
  · intro env fn dir rest l hp
    rw [ExportPipeline.exportLoop]
    simp only [ExportPipeline.attemptDir_spec, hp, if_true]

/-- The concrete export world for the C9 witness: one queued record, an
Android device on which the public downloads directory fails (its existence
probe throws) and the external-storage fallback fully succeeds. -/
def ExportPipeline.exWorld : ExportPipeline.ExportWorld :=
  { queue := [.jobj [("form", .jstr "f1")]]
    platform := .android true true
    timestamp := "2026-10-11T12:00:00.000Z"
    env := fun d =>
      if d = ExportPipeline.downloadDirectoryPath then
        { existsDir := .error (.jobj [("message", .jstr "EACCES")])
          mkdirRes := .ok (), writeRes := .ok (), existsFile := .ok true }
      else
        { existsDir := .ok true, mkdirRes := .ok (), writeRes := .ok ()
          existsFile := .ok true } }

/-- Witness: C9 at the concrete world — the export succeeds on the second
candidate directory, the first having thrown. -/
theorem c9_export_tristate_witness :
    (ExportPipeline.exportPendingFormsToFile ExportPipeline.exWorld).1 =
      .success ("ExternalStorage/Download" ++ "/" ++
          ExportPipeline.buildFileName ExportPipeline.exWorld.timestamp)
        (ExportPipeline.buildFileName ExportPipeline.exWorld.timestamp)
        "ExternalStorage/Download" :=
  (((c9_export_tristate ExportPipeline.exWorld).2.1 (by decide)).1
    "ExternalStorage/Download" (by decide))
